import Mathlib

/-!
Verification of the chatbot-loom bot registry and conversation builder,
shallowly embedded from src/chatbot_loom/bots.py.

Modelling conventions:
- JSON values are the inductive type Json; a file's on-disk content is
  abstracted modulo formatting (a string that is not valid JSON is the
  distinguished value FileContent.malformed, so json.load either raises
  ParseError on it or yields the Json value).
- The process-global uuid4().hex generator is modelled as an explicit
  supply ids : Nat -> String together with a counter in the registry
  state: the n-th constructed ChatBot receives identifier ids n.
- Python exceptions are the error type LoomError, returned via Except.
- Each registry operation takes the state (file content plus uuid
  counter) and returns its result together with the post state, so that
  "the file is unchanged" is a provable statement about the post state.
-/

/-- JSON values, as produced by json.load / consumed by json.dump. -/
inductive Json where
  | str : String → Json
  | num : Int → Json
  | bool : Bool → Json
  | null : Json
  | arr : List Json → Json
  | obj : List (String × Json) → Json

/-- Dictionary lookup on a JSON value: key access on an object, first
match; none models a missing key or a non-object receiver. -/
def Json.lookup : Json → String → Option Json
  | .obj fields, key => fields.lookup key
  | _, _ => none

/-- Whether a JSON value is a string, as tested by the schema fragment
requiring type string. -/
def Json.isStr : Json → Bool
  | .str _ => true
  | _ => false

/-- The four property names of BOTS_SCHEMA, which are also exactly its
required field names (bots.py lines 8-20). -/
def BOT_REQUIRED : List String := ["id", "name", "description", "entrypoint"]

/-- One properties entry of BOTS_SCHEMA: if the key is present its value
must be a string; an absent key is not constrained by properties. -/
def propertyOk (fields : List (String × Json)) (key : String) : Bool :=
  match fields.lookup key with
  | some v => v.isStr
  | none => true

/-- One required entry of BOTS_SCHEMA: the key must be present. -/
def requiredOk (fields : List (String × Json)) (key : String) : Bool :=
  (fields.lookup key).isSome

/-- Validation of a single array item against the items subschema of
BOTS_SCHEMA: it must be an object, each of the four listed properties
must be a string when present, and all four are required. -/
def validItem : Json → Bool
  | .obj fields => BOT_REQUIRED.all (propertyOk fields) && BOT_REQUIRED.all (requiredOk fields)
  | _ => false

/-- jsonschema.validate of an instance against BOTS_SCHEMA, as a Bool:
the instance must be an array and every item must satisfy the items
subschema. -/
def validateBots : Json → Bool
  | .arr items => items.all validItem
  | _ => false

/-- The ChatBot entity of bots.py: the attributes set in its init are
identifier, name, description and entrypoint (there is no attribute
named id). -/
structure ChatBot where
  identifier : String
  name : String
  description : String
  entrypoint : String
deriving DecidableEq, Repr

/-- Python errors that the modelled code can raise. -/
inductive LoomError where
  | storageError
  | parseError
  | schemaError
  | attributeError
  | valueError
  | indexError
deriving DecidableEq, Repr

/-- Python getattr on a ChatBot instance restricted to its string data
attributes: the four attributes set in init exist; any other name (in
particular id) yields none, modelling AttributeError. -/
def ChatBot.getattr (b : ChatBot) (attr : String) : Option String :=
  if attr = "identifier" then some b.identifier
  else if attr = "name" then some b.name
  else if attr = "description" then some b.description
  else if attr = "entrypoint" then some b.entrypoint
  else none

/-- ChatBot eq of bots.py lines 40-43 applied to two ChatBot operands
(the isinstance guard passes): it evaluates self.identifier == other.id,
and since a ChatBot has no attribute id the attribute access raises
AttributeError, modelled as an error result. -/
def ChatBot.pyEq (self other : ChatBot) : Except LoomError Bool :=
  match other.getattr "id" with
  | some v => .ok (self.identifier == v)
  | none => .error .attributeError

/-- Content of the bots file when it exists: either a string that is not
valid JSON, or its parsed JSON value (content is abstracted modulo JSON
formatting). -/
inductive FileContent where
  | malformed : FileContent
  | json : Json → FileContent

/-- State threaded through the registry operations: the content at
chatbots_file_path (none when the file is absent) and the position in
the uuid4 supply. -/
structure LoomState where
  file : Option FileContent
  ctr : Nat

/-- ChatBotLoom.chat_bots_file_exists: existence check on the path. -/
def chat_bots_file_exists (s : LoomState) : Bool := s.file.isSome

/-- Field extraction bot[key] performed by the list comprehension in
load_bots after validation; under validItem the key is always present
with a string value, so the default is never reached there. -/
def getStrField (j : Json) (key : String) : String :=
  match j.lookup key with
  | some (.str s) => s
  | _ => ""

/-- The list comprehension of load_bots line 107-109: each record is
passed to the ChatBot constructor as (name, description, entrypoint),
so each bot receives a fresh identifier from the uuid4 supply; the id
field of the record is not read. -/
def materializeBots (ids : Nat → String) : Nat → List Json → List ChatBot
  | _, [] => []
  | c, j :: rest =>
      ChatBot.mk (ids c) (getStrField j "name") (getStrField j "description")
          (getStrField j "entrypoint")
        :: materializeBots ids (c + 1) rest

/-- ChatBotLoom.load_bots (bots.py lines 102-109): open the file
(StorageError when absent), json.load (ParseError on invalid JSON),
validate against BOTS_SCHEMA (SchemaValidationError on failure), then
materialize one ChatBot per record in file order. The operation never
writes; on any error the state is returned unchanged. -/
def load_bots (ids : Nat → String) (s : LoomState) :
    Except LoomError (List ChatBot) × LoomState :=
  match s.file with
  | none => (.error .storageError, s)
  | some .malformed => (.error .parseError, s)
  | some (.json (.arr items)) =>
      if items.all validItem then
        (.ok (materializeBots ids s.ctr items), ⟨s.file, s.ctr + items.length⟩)
      else (.error .schemaError, s)
  | some (.json _) => (.error .schemaError, s)

/-- Serialization of one bot by save_bots_to_file lines 119-127: an
object with exactly the four string fields, in this key order, taken
from the bot's attributes. -/
def serializeBot (b : ChatBot) : Json :=
  .obj [("id", .str b.identifier), ("name", .str b.name),
        ("description", .str b.description), ("entrypoint", .str b.entrypoint)]

/-- ChatBotLoom.save_bots_to_file (lines 115-130): overwrite the file
with the JSON array of the serialized bots. -/
def save_bots_to_file (bots : List ChatBot) (s : LoomState) : LoomState :=
  ⟨some (.json (.arr (bots.map serializeBot))), s.ctr⟩

/-- ChatBotLoom.add_bot_to_file (lines 132-136): load the current
collection when the file exists (an empty collection otherwise), append
the bot, save. A load failure propagates before any write. -/
def add_bot_to_file (ids : Nat → String) (b : ChatBot) (s : LoomState) :
    Except LoomError Unit × LoomState :=
  if chat_bots_file_exists s then
    match load_bots ids s with
    | (.error e, s1) => (.error e, s1)
    | (.ok bots, s1) => (.ok (), save_bots_to_file (bots ++ [b]) s1)
  else
    (.ok (), save_bots_to_file [b] s)

/-- Python list.remove on a list of ChatBots: scan in order, compare
each element to the argument with ChatBot eq, remove the first match;
ValueError when no element matches. The CPython identity shortcut never
fires in remove_bot because the scanned list consists of objects freshly
constructed by load_bots, distinct from the caller's argument. -/
def listRemove : List ChatBot → ChatBot → Except LoomError (List ChatBot)
  | [], _ => .error .valueError
  | x :: rest, b =>
      match x.pyEq b with
      | .error e => .error e
      | .ok true => .ok rest
      | .ok false => (listRemove rest b).map (x :: ·)

/-- ChatBotLoom.remove_bot (lines 138-142): load the collection, remove
the first element equal to the bot, save. A failure of load or of the
removal propagates before any write. -/
def remove_bot (ids : Nat → String) (b : ChatBot) (s : LoomState) :
    Except LoomError Unit × LoomState :=
  match load_bots ids s with
  | (.error e, s1) => (.error e, s1)
  | (.ok bots, s1) =>
      match listRemove bots b with
      | .error e => (.error e, s1)
      | .ok bots2 => (.ok (), save_bots_to_file bots2 s1)

/-- The scan of ChatBotLoom find_bot (lines 87-92) over an already
loaded list: getattr(bot, criteria) compared to the value, first match
wins; a missing attribute name would raise AttributeError. -/
def find_in (criteria value : String) : List ChatBot → Except LoomError (Option ChatBot)
  | [] => .ok none
  | b :: rest =>
      match b.getattr criteria with
      | none => .error .attributeError
      | some v => if v = value then .ok (some b) else find_in criteria value rest

/-- ChatBotLoom.get_bot (lines 94-96): linear scan of load_bots output
on the identifier attribute. -/
def get_bot (ids : Nat → String) (bot_id : String) (s : LoomState) :
    Except LoomError (Option ChatBot) × LoomState :=
  match load_bots ids s with
  | (.error e, s1) => (.error e, s1)
  | (.ok bots, s1) => (find_in "identifier" bot_id bots, s1)

/-- ChatBotLoom.get_bot_by_name (lines 98-100): linear scan of
load_bots output on the name attribute. -/
def get_bot_by_name (ids : Nat → String) (name : String) (s : LoomState) :
    Except LoomError (Option ChatBot) × LoomState :=
  match load_bots ids s with
  | (.error e, s1) => (.error e, s1)
  | (.ok bots, s1) => (find_in "name" name bots, s1)

/-- Message roles used by bots.py: the role strings system and user. -/
inductive Role where
  | system : Role
  | user : Role
deriving DecidableEq, Repr

/-- One role-tagged message of the outgoing request. -/
structure Msg where
  role : Role
  content : String
deriving DecidableEq, Repr

/-- The request handed to ChatCompletion.create: a model identifier and
the ordered message list. -/
structure Request where
  model : String
  messages : List Msg
deriving DecidableEq, Repr

/-- The nested message of one response choice. -/
structure RespMessage where
  content : String
deriving DecidableEq, Repr

/-- One choice of the completion response. -/
structure Choice where
  message : RespMessage
deriving DecidableEq, Repr

/-- The completion response: a list of choices. -/
structure Response where
  choices : List Choice
deriving DecidableEq, Repr

/-- The fixed model identifier CHAT_GPT_MODEL_ID of bots.py line 22. -/
def CHAT_GPT_MODEL_ID : String := "gpt-4"

/-- ChatBot initialize chat helper (lines 48-50): the singleton list
holding one system-role message whose content is the entrypoint. -/
def ChatBot.initChat (b : ChatBot) : List Msg :=
  [⟨Role.system, b.entrypoint⟩]

/-- The history loop of ChatBot.chat lines 56-58: for each turn, a
user-role message with the first component then a system-role message
with the second. -/
def historyMessages : List (String × String) → List Msg
  | [] => []
  | (u, a) :: rest => ⟨Role.user, u⟩ :: ⟨Role.system, a⟩ :: historyMessages rest

/-- The full outgoing request assembled by ChatBot.chat lines 55-64:
initial system message, replayed history, final user message, under the
fixed model identifier. -/
def ChatBot.chatRequest (b : ChatBot) (message : String)
    (history : List (String × String)) : Request :=
  ⟨CHAT_GPT_MODEL_ID, b.initChat ++ historyMessages history ++ [⟨Role.user, message⟩]⟩

/-- ChatBot.chat (lines 52-66) with the completion collaborator passed
explicitly: build the request, call the collaborator, return the content
of the first choice's message; an empty choices list models the
IndexError of choices[0]. -/
def ChatBot.chat (b : ChatBot) (message : String)
    (history : List (String × String)) (collab : Request → Response) :
    Except LoomError String :=
  match (collab (b.chatRequest message history)).choices with
  | [] => .error .indexError
  | c :: _ => .ok c.message.content

/-- A key of a record is broken in the sense of the schema when it is
absent or its value is not a string (a non-object record has every key
absent under Json.lookup). -/
def fieldBroken (item : Json) (key : String) : Bool :=
  match item.lookup key with
  | some v => !v.isStr
  | none => true

/-- Concrete uuid4 supply for the concrete-input theorems: a stream of
pairwise distinct tokens, none of which occurs as an id in the fixture
files below (uuid4().hex draws fresh random 128-bit tokens, so distinct
outputs and no collision with a fixed stored id is the generic case). -/
def freshIds : Nat → String := fun n => "fresh" ++ toString n

/-- Fixture: a schema-valid one-record collection whose stored id is
a1. -/
def sampleFileJson : Json :=
  .arr [.obj [("id", .str "a1"), ("name", .str "Helper"),
              ("description", .str "d"), ("entrypoint", .str "You are Helper.")]]

/-- Fixture: registry state holding sampleFileJson, uuid counter 0. -/
def sampleSt : LoomState := ⟨some (.json sampleFileJson), 0⟩

/-- Fixture: an in-memory bot with identifier a1. -/
def bot_b : ChatBot := ⟨"a1", "Helper", "d", "You are Helper."⟩

/-- Fixture: registry state with no file on disk. -/
def absentSt : LoomState := ⟨none, 0⟩

/-- Fixture: registry state whose file holds the valid empty array. -/
def emptyArrSt : LoomState := ⟨some (.json (.arr [])), 0⟩

/-- Fixture: the bot of the spec's example scenario. -/
def sampleBot : ChatBot := ⟨"a1", "Helper", "d", "You are Helper."⟩

/-- Fixture: a stubbed completion collaborator that always answers with
the single reply Hello!. -/
def stubCollab : Request → Response := fun _ => ⟨[⟨⟨"Hello!"⟩⟩]⟩

/-- Fixture: a record missing the required id field. -/
def badItemJson : Json :=
  .obj [("name", Json.str "B"), ("description", Json.str "d"),
        ("entrypoint", Json.str "e")]

/-- Fixture: registry state whose file holds one schema-invalid item. -/
def badFileSt : LoomState := ⟨some (.json (.arr [badItemJson])), 0⟩

/-- Fixture: registry state whose file exists but is not valid JSON. -/
def malformedSt : LoomState := ⟨some FileContent.malformed, 0⟩

/-- Every serialized bot record satisfies the items subschema. -/
theorem validItem_serializeBot (b : ChatBot) : validItem (serializeBot b) = true := rfl

/-- Materialization produces one bot per record. -/
theorem materializeBots_length (ids : Nat → String) (c : Nat) (items : List Json) :
    (materializeBots ids c items).length = items.length := by
  induction items generalizing c with
  | nil => rfl
  | cons j rest ih => simp [materializeBots, ih]

/-- When load_bots fails, it returns the state unchanged (it has no
write path). -/
theorem load_bots_error_state (ids : Nat → String) (s : LoomState) (e : LoomError)
    (h : (load_bots ids s).1 = .error e) : (load_bots ids s).2 = s := by
  obtain ⟨f, c⟩ := s
  cases f with
  | none => rfl
  | some fc =>
    cases fc with
    | malformed => rfl
    | json j =>
      cases j with
      | arr items =>
          by_cases hall : items.all validItem = true
          · exfalso
            simp [load_bots, hall] at h
          · simp [load_bots, hall]
      | str v => rfl
      | num v => rfl
      | bool v => rfl
      | null => rfl
      | obj v => rfl

/-- A record with a broken required key fails item validation. -/
theorem validItem_false_of_fieldBroken (item : Json) (k : String)
    (hk : k ∈ BOT_REQUIRED) (hb : fieldBroken item k = true) :
    validItem item = false := by
  cases item with
  | obj fields =>
      simp only [validItem]
      rw [Bool.eq_false_iff]
      intro hv
      rw [Bool.and_eq_true, List.all_eq_true, List.all_eq_true] at hv
      obtain ⟨hp, hr⟩ := hv
      have h1 := hp k hk
      have h2 := hr k hk
      simp only [fieldBroken, Json.lookup] at hb
      simp only [propertyOk] at h1
      simp only [requiredOk] at h2
      cases hl : fields.lookup k with
      | none => rw [hl] at h2; simp at h2
      | some v =>
          rw [hl] at h1 hb
          simp only [Bool.not_eq_true'] at hb
          simp [hb] at h1
  | str v => rfl
  | num v => rfl
  | bool v => rfl
  | null => rfl
  | arr v => rfl

/-- The history loop emits, per turn, a user message then a system
message. -/
theorem historyMessages_eq_flatMap (h : List (String × String)) :
    historyMessages h
      = h.flatMap fun t => [Msg.mk Role.user t.1, Msg.mk Role.system t.2] := by
  induction h with
  | nil => rfl
  | cons t rest ih => cases t; simp [historyMessages, ih]

/-- The history loop emits exactly two messages per turn. -/
theorem historyMessages_length (h : List (String × String)) :
    (historyMessages h).length = 2 * h.length := by
  induction h with
  | nil => rfl
  | cons t rest ih =>
      cases t
      simp [historyMessages, ih]
      omega

/-- C1: the round-trip law fails on the code. Starting from a
schema-valid file whose record has id a1, the first load_bots already
replaces the id by a fresh uuid token, save_bots_to_file persists that
token, and the second load_bots replaces it by the next fresh token, so
the two loaded collections agree on name, description and entrypoint but
differ in their id values. -/
theorem roundtrip_changes_identifiers :
    ∃ bots1 bots2 : List ChatBot,
      (load_bots freshIds sampleSt).1 = .ok bots1
      ∧ (load_bots freshIds
          (save_bots_to_file bots1 (load_bots freshIds sampleSt).2)).1 = .ok bots2
      ∧ bots1.map ChatBot.name = bots2.map ChatBot.name
      ∧ bots1.map ChatBot.description = bots2.map ChatBot.description
      ∧ bots1.map ChatBot.entrypoint = bots2.map ChatBot.entrypoint
      ∧ bots1.map ChatBot.identifier ≠ bots2.map ChatBot.identifier :=
  ⟨[ChatBot.mk "fresh0" "Helper" "d" "You are Helper."],
   [ChatBot.mk "fresh1" "Helper" "d" "You are Helper."],
   rfl, rfl, rfl, rfl, rfl, by decide⟩

/-- C2: load_bots does not use the persisted id. On the fixture file
whose single record stores id a1, the returned bot's identifier is the
next token of the uuid4 supply (the constructor call on line 108 passes
only name, description and entrypoint, and the init on line 29 generates
a fresh uuid), not the stored string a1. File order and the other three
fields are preserved. -/
theorem load_bots_regenerates_identifier :
    sampleSt.file = some (.json (.arr [.obj [("id", Json.str "a1"),
        ("name", Json.str "Helper"), ("description", Json.str "d"),
        ("entrypoint", Json.str "You are Helper.")]]))
    ∧ (load_bots freshIds sampleSt).1
      = .ok [ChatBot.mk "fresh0" "Helper" "d" "You are Helper."]
    ∧ ("fresh0" : String) ≠ "a1" :=
  ⟨rfl, rfl, by decide⟩

/-- C3: the equality test is never an identifier comparison: for any two
ChatBot operands it raises AttributeError, because the body of eq (line
43) reads other.id and a ChatBot has no attribute named id (the init
sets identifier, name, description, entrypoint only). -/
theorem pyEq_always_attributeError (a b : ChatBot) :
    a.pyEq b = .error .attributeError := rfl

/-- C4: adding a bot and then looking its identifier up fails. Starting
from an absent file, add_bot_to_file persists exactly the one record
(length grows 0 to 1 as claimed), but get_bot with the added bot's
identifier a1 returns none, because the load inside get_bot regenerates
every identifier from the uuid supply and the fresh token differs from
a1. -/
theorem add_then_get_bot_returns_none :
    (add_bot_to_file freshIds bot_b absentSt).1 = .ok ()
    ∧ (add_bot_to_file freshIds bot_b absentSt).2.file
        = some (.json (.arr [serializeBot bot_b]))
    ∧ (get_bot freshIds bot_b.identifier
        (add_bot_to_file freshIds bot_b absentSt).2).1 = .ok none :=
  ⟨rfl, rfl, rfl⟩

/-- C6: remove_bot after add_bot_to_file does not restore the prior
length: starting from a valid empty collection, adding bot_b persists
one record, and the subsequent remove_bot raises AttributeError (the
first comparison of list.remove calls the broken eq), leaving the file
unchanged with the added record still present. -/
theorem remove_bot_after_add_raises_attributeError :
    (add_bot_to_file freshIds bot_b emptyArrSt).2.file
      = some (.json (.arr [serializeBot bot_b]))
    ∧ (remove_bot freshIds bot_b (add_bot_to_file freshIds bot_b emptyArrSt).2).1
      = .error .attributeError
    ∧ (remove_bot freshIds bot_b (add_bot_to_file freshIds bot_b emptyArrSt).2).2.file
      = (add_bot_to_file freshIds bot_b emptyArrSt).2.file :=
  ⟨rfl, rfl, rfl⟩

/-- C5: chat sends exactly 2n+2 messages for n history turns, in the
order: one system message with the entrypoint, then per turn a user
message with the user text followed by a system message with the bot
text, then one final user message with the new message; the returned
string is the content of the first choice of the collaborator's
response. -/
theorem chat_contract (b : ChatBot) (m : String) (h : List (String × String))
    (collab : Request → Response) (c : Choice) (cs : List Choice)
    (hresp : (collab (b.chatRequest m h)).choices = c :: cs) :
    (b.chatRequest m h).model = CHAT_GPT_MODEL_ID
    ∧ (b.chatRequest m h).messages
      = Msg.mk Role.system b.entrypoint
          :: (h.flatMap fun t => [Msg.mk Role.user t.1, Msg.mk Role.system t.2])
          ++ [Msg.mk Role.user m]
    ∧ (b.chatRequest m h).messages.length = 2 * h.length + 2
    ∧ b.chat m h collab = .ok c.message.content := by
  refine ⟨rfl, ?_, ?_, ?_⟩
  · simp [ChatBot.chatRequest, ChatBot.initChat, historyMessages_eq_flatMap]
  · simp [ChatBot.chatRequest, ChatBot.initChat, historyMessages_length]
  · simp [ChatBot.chat, hresp]

/-- Witness for C5, the spec's example scenario: the stub collaborator
answers Hello!, and on history [(Hi, Hello!)] with new message Next
question the request is system/entrypoint, user/Hi, system/Hello!,
user/Next question and the reply is Hello!. -/
theorem chat_contract_witness :
    (stubCollab (sampleBot.chatRequest "Next question" [("Hi", "Hello!")])).choices
        = Choice.mk (RespMessage.mk "Hello!") :: []
    ∧ ((sampleBot.chatRequest "Next question" [("Hi", "Hello!")]).model = CHAT_GPT_MODEL_ID
      ∧ (sampleBot.chatRequest "Next question" [("Hi", "Hello!")]).messages
        = Msg.mk Role.system sampleBot.entrypoint
            :: ([("Hi", "Hello!")].flatMap fun t =>
                  [Msg.mk Role.user t.1, Msg.mk Role.system t.2])
            ++ [Msg.mk Role.user "Next question"]
      ∧ (sampleBot.chatRequest "Next question" [("Hi", "Hello!")]).messages.length
        = 2 * [("Hi", "Hello!")].length + 2
      ∧ sampleBot.chat "Next question" [("Hi", "Hello!")] stubCollab
        = .ok (Choice.mk (RespMessage.mk "Hello!")).message.content) :=
  ⟨rfl, chat_contract sampleBot "Next question" [("Hi", "Hello!")] stubCollab
      (Choice.mk (RespMessage.mk "Hello!")) [] rfl⟩

/-- C7: on a file holding a JSON array with an item whose required key
is missing or holds a non-string value, load_bots fails with the schema
validation error and returns the state, hence the file content,
unchanged. -/
theorem load_bots_schema_error_on_bad_item (ids : Nat → String) (s : LoomState)
    (items : List Json) (item : Json) (k : String)
    (hfile : s.file = some (.json (.arr items)))
    (hmem : item ∈ items) (hk : k ∈ BOT_REQUIRED)
    (hb : fieldBroken item k = true) :
    (load_bots ids s).1 = .error .schemaError ∧ (load_bots ids s).2 = s := by
  have hvi := validItem_false_of_fieldBroken item k hk hb
  have hall : items.all validItem = false := by
    rw [Bool.eq_false_iff]
    intro hcontra
    rw [List.all_eq_true] at hcontra
    have := hcontra item hmem
    rw [hvi] at this
    simp at this
  obtain ⟨f, c⟩ := s
  simp only at hfile
  subst hfile
  simp [load_bots, hall]

/-- Witness for C7: a one-item array whose record lacks the id key makes
load_bots fail with the schema error and leave the state unchanged. -/
theorem load_bots_schema_error_witness :
    badFileSt.file = some (.json (.arr [badItemJson]))
    ∧ badItemJson ∈ [badItemJson]
    ∧ "id" ∈ BOT_REQUIRED
    ∧ fieldBroken badItemJson "id" = true
    ∧ ((load_bots freshIds badFileSt).1 = .error .schemaError
        ∧ (load_bots freshIds badFileSt).2 = badFileSt) :=
  ⟨rfl, List.Mem.head _, by decide, rfl,
   load_bots_schema_error_on_bad_item freshIds badFileSt [badItemJson] badItemJson "id"
     rfl (List.Mem.head _) (by decide) rfl⟩

/-- C8: when the file exists and loading it fails (parse or schema
failure), both read-modify-write operations abort with that same load
error before any write: add_bot_to_file and remove_bot return the error
and leave the file content unchanged. -/
theorem rmw_aborts_on_load_failure (ids : Nat → String) (b : ChatBot) (s : LoomState)
    (e : LoomError) (hex : chat_bots_file_exists s = true)
    (hload : (load_bots ids s).1 = .error e) :
    (add_bot_to_file ids b s).1 = .error e
    ∧ (add_bot_to_file ids b s).2.file = s.file
    ∧ (remove_bot ids b s).1 = .error e
    ∧ (remove_bot ids b s).2.file = s.file := by
  have hst := load_bots_error_state ids s e hload
  have hpair : load_bots ids s = (Except.error e, s) :=
    Prod.ext_iff.mpr ⟨hload, hst⟩
  refine ⟨?_, ?_, ?_, ?_⟩ <;>
    simp [add_bot_to_file, remove_bot, hex, hpair]

/-- Witness for C8: on a file that exists but is not valid JSON, both
add_bot_to_file and remove_bot return the parse error and leave the
content unchanged. -/
theorem rmw_aborts_witness :
    chat_bots_file_exists malformedSt = true
    ∧ (load_bots freshIds malformedSt).1 = .error .parseError
    ∧ ((add_bot_to_file freshIds bot_b malformedSt).1 = .error .parseError
      ∧ (add_bot_to_file freshIds bot_b malformedSt).2.file = malformedSt.file
      ∧ (remove_bot freshIds bot_b malformedSt).1 = .error .parseError
      ∧ (remove_bot freshIds bot_b malformedSt).2.file = malformedSt.file) :=
  ⟨rfl, rfl,
   rmw_aborts_on_load_failure freshIds bot_b malformedSt LoomError.parseError rfl rfl⟩

/-- C9: save_bots_to_file writes the JSON array of one object per bot,
each with exactly the four string fields taken from that bot; the
written value validates against BOTS_SCHEMA, and a load_bots on the
saved state succeeds (no parse or schema error) with one bot per saved
record. -/
theorem save_bots_output_schema_valid (ids : Nat → String) (bots : List ChatBot)
    (s : LoomState) :
    (save_bots_to_file bots s).file = some (.json (.arr (bots.map serializeBot)))
    ∧ bots.map serializeBot = bots.map (fun b =>
        Json.obj [("id", Json.str b.identifier), ("name", Json.str b.name),
                  ("description", Json.str b.description),
                  ("entrypoint", Json.str b.entrypoint)])
    ∧ validateBots (.arr (bots.map serializeBot)) = true
    ∧ ∃ bots2, (load_bots ids (save_bots_to_file bots s)).1 = .ok bots2
        ∧ bots2.length = bots.length := by
  have hall : (bots.map serializeBot).all validItem = true := by
    rw [List.all_eq_true]
    intro x hx
    rw [List.mem_map] at hx
    obtain ⟨b, _, rfl⟩ := hx
    exact validItem_serializeBot b
  refine ⟨rfl, rfl, ?_, ?_⟩
  · simpa [validateBots] using hall
  · exact ⟨materializeBots ids s.ctr (bots.map serializeBot),
      by simp [load_bots, save_bots_to_file, hall],
      by rw [materializeBots_length, List.length_map]⟩

/-- C10: the outgoing request built by chat reads the bot only through
its entrypoint: two bots sharing an entrypoint yield the identical
request (same model, same message list) and the identical reply for any
collaborator, message and history. -/
theorem chat_depends_only_on_entrypoint (b1 b2 : ChatBot) (m : String)
    (h : List (String × String)) (collab : Request → Response)
    (hep : b1.entrypoint = b2.entrypoint) :
    b1.chatRequest m h = b2.chatRequest m h
    ∧ b1.chat m h collab = b2.chat m h collab := by
  have hreq : b1.chatRequest m h = b2.chatRequest m h := by
    simp [ChatBot.chatRequest, ChatBot.initChat, hep]
  exact ⟨hreq, by simp [ChatBot.chat, hreq]⟩

/-- Witness for C10: two bots differing in identifier, name and
description but sharing an entrypoint produce the same request and the
same reply. -/
theorem chat_depends_only_on_entrypoint_witness :
    (ChatBot.mk "a1" "Alice" "d1" "shared entry").entrypoint
        = (ChatBot.mk "b2" "Bob" "d2" "shared entry").entrypoint
    ∧ ((ChatBot.mk "a1" "Alice" "d1" "shared entry").chatRequest "hi" []
        = (ChatBot.mk "b2" "Bob" "d2" "shared entry").chatRequest "hi" []
      ∧ (ChatBot.mk "a1" "Alice" "d1" "shared entry").chat "hi" [] stubCollab
        = (ChatBot.mk "b2" "Bob" "d2" "shared entry").chat "hi" [] stubCollab) :=
  ⟨rfl, chat_depends_only_on_entrypoint (ChatBot.mk "a1" "Alice" "d1" "shared entry")
      (ChatBot.mk "b2" "Bob" "d2" "shared entry") "hi" [] stubCollab rfl⟩
